import Mathlib

/-!
Verification development for the demikernel TCP passive-open engine,
TCP configuration, and the POSIX runtime scatter-gather operations.

The definitions below are a shallow embedding of the Rust sources:
  - src/rust/inetstack/protocols/layer4/tcp/passive_open.rs
  - src/rust/runtime/network/config/tcp.rs
  - src/catnap/runtime.rs

Machine integers are modelled as Nat with explicit reduction modulo 2^32
where the Rust code performs wrapping 32-bit arithmetic (SeqNumber is a
Wrapping<u32>).  Fallible operations return Option or Except; a Rust
panic (assert!, expect_some!) is modelled as the value none.
-/

/-- Error values (Rust Fail carries an errno; we model the errnos that the
embedded code distinguishes: EBADMSG, ETIMEDOUT, EINVAL, other). -/
inductive FailM where
  | ebadmsg : FailM
  | etimedout : FailM
  | einval : FailM
  | other : Nat → FailM
deriving DecidableEq, Repr

/-- TCP options (TcpOptions2 in header.rs; header.rs is not part of the
excerpt, so only the two options the passive-open engine reads are
distinguished, everything else is otherOpt). -/
inductive TcpOptM where
  | windowScale : Nat → TcpOptM
  | maximumSegmentSize : Nat → TcpOptM
  | otherOpt : TcpOptM
deriving DecidableEq, Repr

/-- TCP header model: the fields of TcpHeader that the embedded code reads
or writes.  Sequence and acknowledgement numbers are 32-bit (kept as Nat,
well-formedness bounds stated separately); window_size is 16-bit. -/
structure TcpHeaderM where
  src_port : Nat
  dst_port : Nat
  seq_num : Nat
  ack_num : Nat
  syn : Bool
  ack : Bool
  fin : Bool
  rst : Bool
  window_size : Nat
  options : List TcpOptM
deriving DecidableEq, Repr

/-- Well-formedness of a header: the numeric fields fit their wire widths. -/
def TcpHeaderM.Wf (h : TcpHeaderM) : Prop :=
  h.seq_num < 2 ^ 32 ∧ h.ack_num < 2 ^ 32 ∧ h.window_size < 2 ^ 16

instance (h : TcpHeaderM) : Decidable h.Wf := by
  unfold TcpHeaderM.Wf; infer_instance

/-- Modelled from the spec: `TcpHeader::new(src, dst)` (header.rs is not in
the excerpt).  A fresh header has all flags clear, zero sequence numbers
and no options; only the ports are set. -/
def mkTcpHeader (src dst : Nat) : TcpHeaderM :=
  { src_port := src, dst_port := dst, seq_num := 0, ack_num := 0,
    syn := false, ack := false, fin := false, rst := false,
    window_size := 0, options := [] }

/-- Modelled from the spec: `TcpHeader::compute_size` (header.rs is not in
the excerpt).  Per the spec, the segment length of the incoming segment
"counts SYN/FIN bytes"; a bare SYN therefore has segment length 1. -/
def compute_size (h : TcpHeaderM) : Nat :=
  (if h.syn then 1 else 0) + (if h.fin then 1 else 0)

/-- TCP configuration descriptor (config/tcp.rs).  Durations are modelled
as Nat (seconds do not matter to any proved property; they are carried
opaquely). -/
structure TcpConfig where
  advertised_mss : Nat
  handshake_retries : Nat
  handshake_timeout : Nat
  receive_window_size : Nat
  window_scale : Nat
  ack_delay_timeout : Nat
  rx_checksum_offload : Bool
  tx_checksum_offload : Bool
deriving DecidableEq, Repr

/-- `TcpConfig::default()` (config/tcp.rs).  DEFAULT_MSS and
TCP_ACK_DELAY_TIMEOUT live in consts.rs which is not in the excerpt, so
they are passed as parameters; the handshake timeout default is 3 seconds
(asserted by the unit test in config/tcp.rs). -/
def TcpConfig.default (DEFAULT_MSS TCP_ACK_DELAY_TIMEOUT : Nat) : TcpConfig :=
  { advertised_mss := DEFAULT_MSS
    handshake_retries := 5
    handshake_timeout := 3
    receive_window_size := 0xffff
    window_scale := 0
    ack_delay_timeout := TCP_ACK_DELAY_TIMEOUT
    rx_checksum_offload := false
    tx_checksum_offload := false }

/-- `TcpConfig::new(config)` (config/tcp.rs).  The Rust code starts from
the default, then `assert!(value >= MIN_MSS); assert!(value <= MAX_MSS)`
before storing a provided mss (a failing assert is a panic, modelled as
none), and stores a provided checksum-offload flag into BOTH
rx_checksum_offload and tx_checksum_offload.  `config.mss()` and
`config.tcp_checksum_offload()` return Result; an Ok is modelled as some.
MIN_MSS and MAX_MSS live in consts.rs (not in the excerpt) and are passed
as parameters. -/
def TcpConfig.new (MIN_MSS MAX_MSS DEFAULT_MSS TCP_ACK_DELAY_TIMEOUT : Nat)
    (cfg_mss : Option Nat) (cfg_checksum_offload : Option Bool) : Option TcpConfig :=
  let options := TcpConfig.default DEFAULT_MSS TCP_ACK_DELAY_TIMEOUT
  match cfg_mss with
  | some value =>
      if MIN_MSS ≤ value then
        if value ≤ MAX_MSS then
          let options := { options with advertised_mss := value }
          match cfg_checksum_offload with
          | some v => some { options with rx_checksum_offload := v, tx_checksum_offload := v }
          | none => some options
        else none
      else none
  | none =>
      match cfg_checksum_offload with
      | some v => some { options with rx_checksum_offload := v, tx_checksum_offload := v }
      | none => some options

/-- A scatter-gather segment (demi_sgaseg_t): a raw pointer and a length. -/
structure demi_sgaseg_t where
  sgaseg_buf : Nat
  sgaseg_len : Nat
deriving DecidableEq, Repr

/-- A scatter-gather array (demi_sgarray_t).  The Rust type carries a
one-element segment array `sga_segs: [demi_sgaseg_t; 1]` and a separate
`sga_numsegs: u32` count. -/
structure demi_sgarray_t where
  sga_numsegs : Nat
  sga_segs : demi_sgaseg_t
deriving DecidableEq, Repr

/-- `PosixRuntime::free_sgarray` (catnap/runtime.rs).  Returns the segment
whose buffer was reconstructed via DataBuffer::from_raw_parts and dropped;
with numsegs != 1 it returns EINVAL before touching any buffer. -/
def free_sgarray (sga : demi_sgarray_t) : Except FailM demi_sgaseg_t :=
  if sga.sga_numsegs ≠ 1 then .error .einval
  else .ok sga.sga_segs

/-- `PosixRuntime::clone_sgarray` (catnap/runtime.rs).  Memory is modelled
as a byte function; the clone copies sgaseg_len bytes starting at
sgaseg_buf into a fresh owned buffer.  With numsegs != 1 it returns EINVAL
before copying anything. -/
def clone_sgarray (mem : Nat → Nat) (sga : demi_sgarray_t) : Except FailM (List Nat) :=
  if sga.sga_numsegs ≠ 1 then .error .einval
  else .ok ((List.range sga.sga_segs.sgaseg_len).map (fun i => mem (sga.sga_segs.sgaseg_buf + i)))

/-- `SharedPassiveSocket::send_rst` (passive_open.rs lines 270-312).
Returns the synthesized RST header together with the checksum-offload
flag handed to `serialize_and_attach` (the code passes
`self.tcp_config.get_rx_checksum_offload()`).  SeqNumber arithmetic is
wrapping 32-bit. -/
def send_rst (cfg : TcpConfig) (local_port remote_port : Nat) (tcp_hdr : TcpHeaderM) :
    TcpHeaderM × Bool :=
  let p : Nat × Nat :=
    if tcp_hdr.ack then
      (tcp_hdr.ack_num, (tcp_hdr.ack_num + 1) % 2 ^ 32)
    else
      (0, (tcp_hdr.seq_num + compute_size tcp_hdr) % 2 ^ 32)
  let h := mkTcpHeader local_port remote_port
  let h := { h with rst := true, seq_num := p.1, ack := true, ack_num := p.2 }
  (h, cfg.rx_checksum_offload)

/-- `SharedPassiveSocket::send_syn_ack` (passive_open.rs lines 388-420).
Returns the SYN+ACK header and the checksum-offload flag handed to
`serialize_and_attach` (the code passes
`self.tcp_config.get_rx_checksum_offload()`). -/
def send_syn_ack (cfg : TcpConfig) (local_port remote_port local_isn remote_isn : Nat) :
    TcpHeaderM × Bool :=
  let h := mkTcpHeader local_port remote_port
  let h := { h with
    syn := true
    seq_num := local_isn
    ack := true
    ack_num := (remote_isn + 1) % 2 ^ 32
    window_size := cfg.receive_window_size
    options := [TcpOptM.maximumSegmentSize cfg.advertised_mss,
                TcpOptM.windowScale cfg.window_scale] }
  (h, cfg.rx_checksum_offload)

/-- MAX_WINDOW_SCALE (consts.rs, not in the excerpt).  Modelled from the
spec: "MAX_WINDOW_SCALE per RFC 1323" is 14. -/
def MAX_WINDOW_SCALE : Nat := 14

/-- Option scan at the top of `send_syn_ack_and_wait_for_ack`
(passive_open.rs lines 324-338): the loop over `tcp_hdr.iter_options()`
records the last WindowScale and MaximumSegmentSize seen; mss falls back
to FALLBACK_MSS (consts.rs, passed as a parameter). -/
def parse_syn_options (FALLBACK_MSS : Nat) (opts : List TcpOptM) : Option Nat × Nat :=
  opts.foldl
    (fun acc o =>
      match o with
      | .windowScale w => (some w, acc.2)
      | .maximumSegmentSize m => (acc.1, m)
      | .otherOpt => acc)
    (none, FALLBACK_MSS)

/-- u32::checked_shl: none when the shift amount is 32 or more, otherwise
the 32-bit truncated left shift. -/
def checked_shl32 (x s : Nat) : Option Nat :=
  if s < 32 then some ((x <<< s) % 2 ^ 32) else none

/-- Window-scale negotiation in `wait_for_ack` (passive_open.rs lines
442-455): with a remote WindowScale option w, keep w when
w < MAX_WINDOW_SCALE, otherwise clamp to MAX_WINDOW_SCALE, and use the
configured local scale; with no option both scales are 0.  Result is
(local_window_scale, remote_window_scale). -/
def negotiate_scales (cfg : TcpConfig) (remote_window_scale : Option Nat) : Nat × Nat :=
  match remote_window_scale with
  | some w =>
      if w < MAX_WINDOW_SCALE then (cfg.window_scale, w)
      else (cfg.window_scale, MAX_WINDOW_SCALE)
  | none => (0, 0)

/-- The parameters handed to `EstablishedSocket::new` by `wait_for_ack`
that the claims are about. -/
structure EstParams where
  receiver_seq_no : Nat
  receiver_window_size : Nat
  receiver_window_scale : Nat
  sender_seq_no : Nat
  sender_window_size : Nat
  sender_window_scale : Nat
  sender_mss : Nat
deriving DecidableEq, Repr

/-- `SharedPassiveSocket::wait_for_ack` (passive_open.rs lines 422-508),
applied to the segment popped from the per-connection receive queue.
`header_window_size` is the window_size of the original SYN (the caller
`send_syn_ack_and_wait_for_ack` passes `tcp_hdr.window_size` of the SYN
it was spawned with).  none models the `expect_some!("Window size
overflow")` panic; the payload re-enqueue and the coroutine spawned by
EstablishedSocket::new are effects outside the returned value. -/
def wait_for_ack (cfg : TcpConfig) (local_isn remote_isn : Nat)
    (header_window_size : Nat) (remote_window_scale : Option Nat) (mss : Nat)
    (seg : TcpHeaderM) : Option (Except FailM EstParams) :=
  if seg.ack_num ≠ (local_isn + 1) % 2 ^ 32 then some (.error .ebadmsg)
  else
    let scales := negotiate_scales cfg remote_window_scale
    match checked_shl32 header_window_size scales.2,
          checked_shl32 cfg.receive_window_size scales.1 with
    | some remote_window_size, some local_window_size =>
        some (.ok
          { receiver_seq_no := (remote_isn + 1) % 2 ^ 32
            receiver_window_size := local_window_size
            receiver_window_scale := scales.1
            sender_seq_no := (local_isn + 1) % 2 ^ 32
            sender_window_size := remote_window_size
            sender_window_scale := scales.2
            sender_mss := mss })
    | _, _ => none

/-- Remote window size as the claim words it: computed from the
window_size field of the segment that acknowledges the SYN+ACK. -/
def remote_window_per_claim (ack_seg : TcpHeaderM) (scale : Nat) : Option Nat :=
  checked_shl32 ack_seg.window_size scale

/-- Outcome of `conditional_yield_with_timeout(ack, handshake_timeout)`
in the retry loop: the wait_for_ack future completed with a result, the
timeout fired (errno ETIMEDOUT), or the yield failed with another error. -/
inductive WaitOutcome where
  | completed : Except FailM EstParams → WaitOutcome
  | timedOut : WaitOutcome
  | failedOther : FailM → WaitOutcome
deriving Repr

/-- One iteration of the retry loop of `send_syn_ack_and_wait_for_ack`
(passive_open.rs lines 343-385): send the SYN+ACK (`send attempt`; on
error push it and exit), then race wait_for_ack against the handshake
timeout (`wait attempt`): a completed result or non-timeout error is
pushed and the coroutine exits; on timeout the loop continues with
`onTimeout`. -/
def handshake_attempt (send : Nat → Except FailM Unit) (wait : Nat → WaitOutcome)
    (attempt : Nat) (onTimeout : Nat × Except FailM EstParams) :
    Nat × Except FailM EstParams :=
  match send attempt with
  | .error e => (1, .error e)
  | .ok _ =>
    match wait attempt with
    | .completed r => (1, r)
    | .failedOther e => (1, .error e)
    | .timedOut => onTimeout

/-- The retry loop of `send_syn_ack_and_wait_for_ack` (passive_open.rs
lines 340-385), counting down `handshake_retries` exactly as the Rust
code does (`if handshake_retries > 0 { decrement; continue } else { push
ETIMEDOUT ("handshake timeout") }`).  Returns the number of SYN+ACK
transmissions attempted and the single result pushed onto the ready
queue before the coroutine exits. -/
def handshake_loop (send : Nat → Except FailM Unit) (wait : Nat → WaitOutcome) :
    Nat → Nat → Nat × Except FailM EstParams
  | attempt, 0 => handshake_attempt send wait attempt (1, .error .etimedout)
  | attempt, r + 1 =>
    let p := handshake_loop send wait (attempt + 1) r
    handshake_attempt send wait attempt (p.1 + 1, p.2)

/-- `SharedPassiveSocket::do_accept` pops the ready queue: the first
pushed result, if any. -/
def do_accept (ready : List (Except FailM EstParams)) : Option (Except FailM EstParams) :=
  ready.head?

/-- The passive-socket state the admission claims are about: the in-flight
connections map (modelled by its key list, newest first), the backlog
bound, and the ready queue. -/
structure PassiveState where
  connections : List Nat
  max_backlog : Nat
  ready : List (Except FailM EstParams)
deriving Repr

/-- Which path `handle_new_syn` / the poll loop took for a segment. -/
inductive SynAction where
  | forwarded : SynAction
  | rstSent : SynAction
  | admitted : SynAction
  | spawnFailed : SynAction
deriving DecidableEq, Repr

/-- `SharedPassiveSocket::handle_new_syn` (passive_open.rs lines 224-267):
if the in-flight count has reached max_backlog, send a RST and return;
otherwise spawn the handshake coroutine (`spawn_ok` is the result of
`insert_background_coroutine`) and, only on success, insert the remote
into the connections map.  On spawn failure the function returns with the
state untouched.  The ready queue is never modified here. -/
def handle_new_syn (spawn_ok : Bool) (s : PassiveState) (remote : Nat) :
    PassiveState × SynAction :=
  if s.max_backlog ≤ s.connections.length then (s, .rstSent)
  else if spawn_ok then ({ s with connections := remote :: s.connections }, .admitted)
  else (s, .spawnFailed)

/-- The SYN-dispatch step of the poll loop (passive_open.rs lines
178-211): a segment from a remote already in the connections map is
forwarded to that connection; otherwise a valid SYN goes to
handle_new_syn. -/
def process_syn (spawn_ok : Bool) (s : PassiveState) (remote : Nat) :
    PassiveState × SynAction :=
  if remote ∈ s.connections then (s, .forwarded)
  else handle_new_syn spawn_ok s remote

/-- Close-notification handling of the poll loop (passive_open.rs lines
171-177): the notifying remote is removed from the connections map. -/
def close_notify (s : PassiveState) (remote : Nat) : PassiveState :=
  { s with connections := s.connections.erase remote }

/-- Processing a sequence of inbound SYNs (coroutine spawns succeeding),
returning the final state and the number of RSTs emitted. -/
def run_syns (s : PassiveState) : List Nat → PassiveState × Nat
  | [] => (s, 0)
  | r :: rs =>
    let p := process_syn true s r
    let q := run_syns p.1 rs
    (q.1, (if p.2 = SynAction.rstSent then 1 else 0) + q.2)

/-- Projection used to state window properties: the sender (remote)
window size of a successfully established socket, if any. -/
def sender_window_of (r : Option (Except FailM EstParams)) : Option Nat :=
  match r with
  | some (.ok e) => some e.sender_window_size
  | _ => none

/-- Concrete configuration used by witnesses: the default with
DEFAULT_MSS = 1450 and ack-delay parameter 0. -/
def cfgW : TcpConfig := TcpConfig.default 1450 0

/-- Concrete configuration whose two checksum-offload flags differ
(the TcpConfig structure admits it even though TcpConfig::new always
sets them together). -/
def cfgTxOnly : TcpConfig :=
  { cfgW with rx_checksum_offload := false, tx_checksum_offload := true }

/-- Concrete bare-SYN header (from port 1234, seq 1000). -/
def synHdr0 : TcpHeaderM :=
  { mkTcpHeader 1234 80 with syn := true, seq_num := 1000 }

/-- Concrete segment with the ack flag set (ack_num 7000). -/
def ackHdr0 : TcpHeaderM :=
  { mkTcpHeader 1234 80 with ack := true, ack_num := 7000 }

/-- Concrete third-handshake ACK: correctly acknowledges local_isn = 50,
and carries window_size 0x200 (distinct from the SYN's 0x100). -/
def ackSeg0 : TcpHeaderM :=
  { mkTcpHeader 1234 80 with ack := true, ack_num := 51, window_size := 0x200 }

/-- C1: RST synthesis follows RFC 793 section 3.4: if the incoming
segment has the ack flag set, the synthesized RST has seq = incoming
ack_num, the ack flag set and ack_num = incoming ack_num + 1; otherwise
it has seq = 0, the ack flag set and ack_num = incoming seq_num plus the
segment length (counting SYN/FIN flag bytes, so a bare SYN yields
seq_num + 1).  All arithmetic is modulo 2^32. -/
theorem send_rst_rfc793 (cfg : TcpConfig) (lp rp : Nat) (hdr : TcpHeaderM)
    (hwf : hdr.Wf) :
    (hdr.ack = true →
       (send_rst cfg lp rp hdr).1.seq_num = hdr.ack_num ∧
       (send_rst cfg lp rp hdr).1.ack = true ∧
       (send_rst cfg lp rp hdr).1.ack_num = (hdr.ack_num + 1) % 2 ^ 32) ∧
    (hdr.ack = false →
       (send_rst cfg lp rp hdr).1.seq_num = 0 ∧
       (send_rst cfg lp rp hdr).1.ack = true ∧
       (send_rst cfg lp rp hdr).1.ack_num = (hdr.seq_num + compute_size hdr) % 2 ^ 32 ∧
       (hdr.syn = true → hdr.fin = false →
         (send_rst cfg lp rp hdr).1.ack_num = (hdr.seq_num + 1) % 2 ^ 32)) ∧
    (send_rst cfg lp rp hdr).1.rst = true := by
  rcases hwf with ⟨h1, h2, h3⟩
  refine ⟨?_, ?_, ?_⟩
  · intro hack
    simp [send_rst, hack, mkTcpHeader]
  · intro hack
    refine ⟨?_, ?_, ?_, ?_⟩ <;> simp [send_rst, hack, mkTcpHeader]
    intro hsyn hfin
    simp [compute_size, hsyn, hfin]
  · by_cases hack : hdr.ack <;> simp [send_rst, hack, mkTcpHeader]

theorem send_rst_rfc793_witness :
    (send_rst cfgW 80 1234 ackHdr0).1.seq_num = ackHdr0.ack_num ∧
    (send_rst cfgW 80 1234 ackHdr0).1.ack = true ∧
    (send_rst cfgW 80 1234 ackHdr0).1.ack_num = (ackHdr0.ack_num + 1) % 2 ^ 32 :=
  (send_rst_rfc793 cfgW 80 1234 ackHdr0 (by decide)).1 rfl

/-- C5: a segment popped from the handshake per-connection receive queue
whose ack_num differs from local_isn + 1 makes wait_for_ack return the
EBADMSG ("invalid SYN+ACK seq num") error without constructing an
established socket; the retry loop pushes exactly that error onto the
ready queue and exits, so the next do_accept yields it. -/
theorem bad_ack_pushes_ebadmsg (cfg : TcpConfig) (local_isn remote_isn hw mss r : Nat)
    (rws : Option Nat) (seg : TcpHeaderM) (send : Nat → Except FailM Unit)
    (wait : Nat → WaitOutcome)
    (hack : seg.ack_num ≠ (local_isn + 1) % 2 ^ 32)
    (hsend : send 0 = .ok ())
    (hwait : wait 0 = .completed (.error .ebadmsg)) :
    wait_for_ack cfg local_isn remote_isn hw rws mss seg = some (.error .ebadmsg) ∧
    handshake_loop send wait 0 r = (1, .error .ebadmsg) ∧
    do_accept [.error FailM.ebadmsg] = some (.error .ebadmsg) := by
  refine ⟨?_, ?_, rfl⟩
  · unfold wait_for_ack
    exact if_pos hack
  · cases r <;> simp [handshake_loop, handshake_attempt, hsend, hwait]

theorem bad_ack_pushes_ebadmsg_witness :
    wait_for_ack cfgW 50 1000 0x100 (some 3) 536 ackHdr0 = some (.error .ebadmsg) ∧
    handshake_loop (fun _ => .ok ()) (fun _ => .completed (.error .ebadmsg)) 0 5
      = (1, .error .ebadmsg) ∧
    do_accept [.error FailM.ebadmsg] = some (.error .ebadmsg) :=
  bad_ack_pushes_ebadmsg cfgW 50 1000 0x100 536 5 (some 3) ackHdr0
    (fun _ => .ok ()) (fun _ => .completed (.error .ebadmsg))
    (by decide) rfl rfl

/-- C6: free_sgarray and clone_sgarray on an array whose segment count is
not exactly 1 return the EINVAL (InvalidArgument) error without releasing
or copying anything; on a one-segment array free_sgarray releases that
segment's buffer and returns OK, and clone_sgarray returns a buffer whose
length and bytes equal the segment's. -/
theorem sgarray_arity (sga : demi_sgarray_t) (mem : Nat → Nat) :
    (sga.sga_numsegs ≠ 1 →
       free_sgarray sga = .error .einval ∧ clone_sgarray mem sga = .error .einval) ∧
    (sga.sga_numsegs = 1 →
       free_sgarray sga = .ok sga.sga_segs ∧
       ∃ l, clone_sgarray mem sga = .ok l ∧
         l.length = sga.sga_segs.sgaseg_len ∧
         ∀ i, ∀ h : i < l.length, l.get ⟨i, h⟩ = mem (sga.sga_segs.sgaseg_buf + i)) := by
  constructor
  · intro h
    constructor <;> simp [free_sgarray, clone_sgarray, h]
  · intro h
    refine ⟨by simp [free_sgarray, h], ?_⟩
    refine ⟨(List.range sga.sga_segs.sgaseg_len).map
      (fun i => mem (sga.sga_segs.sgaseg_buf + i)), ?_, by simp, ?_⟩
    · simp [clone_sgarray, h]
    · intro i hi
      simp at hi
      simp [List.get_eq_getElem, hi]

theorem sgarray_arity_witness :
    free_sgarray ⟨1, ⟨4096, 3⟩⟩ = .ok ⟨4096, 3⟩ ∧
    ∃ l, clone_sgarray (fun a => a + 7) ⟨1, ⟨4096, 3⟩⟩ = .ok l ∧
      l.length = 3 ∧
      ∀ i, ∀ h : i < l.length, l.get ⟨i, h⟩ = 4096 + i + 7 :=
  (sgarray_arity ⟨1, ⟨4096, 3⟩⟩ (fun a => a + 7)).2 rfl

/-- C3: with handshake_retries = r and a peer that never acknowledges
(every transmission succeeds, every ack race times out), the handshake
coroutine sends the SYN+ACK exactly r + 1 times, then pushes the
ETIMEDOUT error onto the ready queue and exits, so do_accept yields
Timeout. -/
theorem handshake_retry (send : Nat → Except FailM Unit) (wait : Nat → WaitOutcome)
    (r : Nat)
    (hsend : ∀ i, send i = .ok ())
    (hwait : ∀ i, wait i = .timedOut) :
    (∀ a, handshake_loop send wait a r = (r + 1, .error .etimedout)) ∧
    do_accept [(handshake_loop send wait 0 r).2] = some (.error .etimedout) := by
  have key : ∀ n a, handshake_loop send wait a n = (n + 1, .error .etimedout) := by
    intro n
    induction n with
    | zero =>
      intro a
      simp [handshake_loop, handshake_attempt, hsend a, hwait a]
    | succ m ih =>
      intro a
      simp [handshake_loop, handshake_attempt, hsend a, hwait a, ih (a + 1)]
  exact ⟨key r, by rw [key r 0]; rfl⟩

theorem handshake_retry_witness :
    handshake_loop (fun _ => .ok ()) (fun _ => .timedOut) 0 5
      = (6, .error .etimedout) ∧
    do_accept [(handshake_loop (fun _ => .ok ()) (fun _ => .timedOut) 0 5).2]
      = some (.error .etimedout) :=
  ⟨(handshake_retry (fun _ => .ok ()) (fun _ => .timedOut) 5
      (fun _ => rfl) (fun _ => rfl)).1 0,
   (handshake_retry (fun _ => .ok ()) (fun _ => .timedOut) 5
      (fun _ => rfl) (fun _ => rfl)).2⟩

/-- C7 counterexample: with MIN_MSS/MAX_MSS/DEFAULT_MSS instantiated to
positive bounds (the RFC-standard 536/65535/1450; the excerpt does not
contain consts.rs, and the refutation holds for any MIN_MSS > 0), an mss
value of 1 below the minimum makes TcpConfig::new hit a failing assert
(a panic, modelled as none) instead of clamping to MIN_MSS and returning
normally. -/
theorem mss_clamp_cex :
    TcpConfig.new 536 65535 1450 0 (some 1) none = none := rfl

/-- C7 amended: TcpConfig::new does not clamp: an mss inside
[MIN_MSS, MAX_MSS] is stored verbatim as advertised_mss, an absent mss
leaves the DEFAULT_MSS of TcpConfig::default, and an mss outside the
interval makes the constructor panic (assertion failure) instead of
returning. -/
theorem mss_assert_behavior (MIN_MSS MAX_MSS DEFAULT_MSS AD v : Nat)
    (co : Option Bool) (hmin : MIN_MSS ≤ v) (hmax : v ≤ MAX_MSS) :
    (∃ cfg, TcpConfig.new MIN_MSS MAX_MSS DEFAULT_MSS AD (some v) co = some cfg ∧
       cfg.advertised_mss = v) ∧
    (∃ cfg, TcpConfig.new MIN_MSS MAX_MSS DEFAULT_MSS AD none co = some cfg ∧
       cfg.advertised_mss = DEFAULT_MSS) ∧
    (∀ w, ¬ (MIN_MSS ≤ w ∧ w ≤ MAX_MSS) →
       TcpConfig.new MIN_MSS MAX_MSS DEFAULT_MSS AD (some w) co = none) := by
  refine ⟨?_, ?_, ?_⟩
  · cases co <;> simp [TcpConfig.new, hmin, hmax]
  · cases co <;> simp [TcpConfig.new, TcpConfig.default]
  · intro w hw
    rcases Decidable.not_and_iff_or_not.mp hw with h | h
    · simp [TcpConfig.new, h]
    · cases co <;> simp [TcpConfig.new, h]

theorem mss_assert_behavior_witness :
    (∃ cfg, TcpConfig.new 536 65535 1450 0 (some 9000) (some true) = some cfg ∧
       cfg.advertised_mss = 9000) ∧
    (∃ cfg, TcpConfig.new 536 65535 1450 0 none (some true) = some cfg ∧
       cfg.advertised_mss = 1450) ∧
    (∀ w, ¬ (536 ≤ w ∧ w ≤ 65535) →
       TcpConfig.new 536 65535 1450 0 (some w) (some true) = none) :=
  mss_assert_behavior 536 65535 1450 0 9000 (some true) (by decide) (by decide)

/-- C8 counterexample: on a configuration whose two checksum-offload
flags differ (rx = false, tx = true), the flag handed to the TCP header
serializer by both send_syn_ack and send_rst is false, not the
configuration's tx_checksum_offload. -/
theorem tx_checksum_flag_cex :
    cfgTxOnly.tx_checksum_offload = true ∧
    (send_syn_ack cfgTxOnly 80 1234 100 200).2 ≠ cfgTxOnly.tx_checksum_offload ∧
    (send_rst cfgTxOnly 80 1234 synHdr0).2 ≠ cfgTxOnly.tx_checksum_offload := by
  refine ⟨rfl, ?_, ?_⟩ <;> decide

/-- C8 amended: the checksum-offload flag handed to the TCP header
serializer when the passive-open engine transmits (the SYN+ACK in
send_syn_ack and the RST in send_rst) is the configuration's
rx_checksum_offload flag; since TcpConfig::new and TcpConfig::default
always set rx_checksum_offload and tx_checksum_offload to the same
value, the two flags coincide on every constructible configuration. -/
theorem checksum_flag_is_rx (cfg : TcpConfig) (lp rp li ri : Nat) (hdr : TcpHeaderM) :
    (send_syn_ack cfg lp rp li ri).2 = cfg.rx_checksum_offload ∧
    (send_rst cfg lp rp hdr).2 = cfg.rx_checksum_offload ∧
    (∀ MIN_MSS MAX_MSS DEFAULT_MSS AD m co cfg2,
       TcpConfig.new MIN_MSS MAX_MSS DEFAULT_MSS AD m co = some cfg2 →
       cfg2.rx_checksum_offload = cfg2.tx_checksum_offload) ∧
    (∀ DEFAULT_MSS AD,
       (TcpConfig.default DEFAULT_MSS AD).rx_checksum_offload
         = (TcpConfig.default DEFAULT_MSS AD).tx_checksum_offload) := by
  refine ⟨rfl, rfl, ?_, fun _ _ => rfl⟩
  intro MIN MAX DEF AD m co cfg2 h
  cases m with
  | none =>
    cases co with
    | none =>
      simp [TcpConfig.new] at h
      subst h
      rfl
    | some b =>
      simp [TcpConfig.new] at h
      subst h
      rfl
  | some v =>
    by_cases h1 : MIN ≤ v
    · by_cases h2 : v ≤ MAX
      · cases co with
        | none =>
          simp [TcpConfig.new, h1, h2] at h
          subst h
          rfl
        | some b =>
          simp [TcpConfig.new, h1, h2] at h
          subst h
          rfl
      · simp [TcpConfig.new, h1, h2] at h
    · simp [TcpConfig.new, h1] at h

theorem checksum_flag_is_rx_witness :
    (send_syn_ack cfgW 80 1234 100 200).2 = cfgW.rx_checksum_offload ∧
    (send_rst cfgW 80 1234 synHdr0).2 = cfgW.rx_checksum_offload ∧
    ({ advertised_mss := 9000, handshake_retries := 5, handshake_timeout := 3,
       receive_window_size := 0xffff, window_scale := 0, ack_delay_timeout := 0,
       rx_checksum_offload := true, tx_checksum_offload := true
       : TcpConfig }).rx_checksum_offload
      = ({ advertised_mss := 9000, handshake_retries := 5, handshake_timeout := 3,
           receive_window_size := 0xffff, window_scale := 0, ack_delay_timeout := 0,
           rx_checksum_offload := true, tx_checksum_offload := true
           : TcpConfig }).tx_checksum_offload :=
  ⟨(checksum_flag_is_rx cfgW 80 1234 100 200 synHdr0).1,
   (checksum_flag_is_rx cfgW 80 1234 100 200 synHdr0).2.1,
   (checksum_flag_is_rx cfgW 80 1234 100 200 synHdr0).2.2.1
     536 65535 1450 0 (some 9000) (some true) _ rfl⟩

/-- A 16-bit value shifted by at most 14 bits fits in 32 bits. -/
theorem shl16_lt (x s : Nat) (hx : x < 2 ^ 16) (hs : s ≤ 14) : x <<< s < 2 ^ 32 := by
  rw [Nat.shiftLeft_eq]
  calc x * 2 ^ s ≤ (2 ^ 16 - 1) * 2 ^ 14 :=
        Nat.mul_le_mul (by omega) (Nat.pow_le_pow_right (by norm_num) hs)
    _ < 2 ^ 32 := by norm_num

/-- The negotiated remote window scale never exceeds MAX_WINDOW_SCALE. -/
theorem negotiate_scales_snd_le (cfg : TcpConfig) (rws : Option Nat) :
    (negotiate_scales cfg rws).2 ≤ MAX_WINDOW_SCALE := by
  cases rws with
  | none => simp [negotiate_scales]
  | some w =>
    by_cases h : w < MAX_WINDOW_SCALE
    · simp [negotiate_scales, h]
      omega
    · simp [negotiate_scales, h]

/-- The negotiated local window scale is the configured one or zero. -/
theorem negotiate_scales_fst_le (cfg : TcpConfig) (rws : Option Nat)
    (hcfg : cfg.window_scale ≤ MAX_WINDOW_SCALE) :
    (negotiate_scales cfg rws).1 ≤ MAX_WINDOW_SCALE := by
  cases rws with
  | none => simp [negotiate_scales]
  | some w =>
    by_cases h : w < MAX_WINDOW_SCALE <;> simp [negotiate_scales, h, hcfg]

/-- C4 counterexample: SYN with window_size 0x100 and WindowScale 3;
the third-handshake ACK (ackSeg0) carries window_size 0x200.  The
established connection's remote (sender) window is 0x100 << 3 = 0x800,
computed from the SYN's window_size, not 0x200 << 3 = 0x1000 as computed
from the SYN+ACK-acknowledging segment's window_size. -/
theorem window_from_ack_segment_cex :
    sender_window_of (wait_for_ack cfgW 50 1000 0x100 (some 3) 536 ackSeg0)
      = some 0x800 ∧
    remote_window_per_claim ackSeg0 3 = some 0x1000 ∧
    (0x800 : Nat) ≠ 0x1000 := by
  refine ⟨by decide, by decide, by decide⟩

/-- C4 amended: a remote WindowScale w > 14 is clamped to 14; an absent
option makes both scales 0 and leaves the advertised window unscaled; and
the established connection's remote window size equals the ORIGINAL SYN
segment's header window_size shifted left by the (possibly clamped)
remote window scale (the code hands the SYN's window_size down to
wait_for_ack; the window_size of the acknowledging segment is not used). -/
theorem window_scale_negotiation (cfg : TcpConfig) (local_isn remote_isn mss synW : Nat)
    (rws : Option Nat) (seg : TcpHeaderM)
    (hcfg : cfg.window_scale ≤ MAX_WINDOW_SCALE)
    (hsynW : synW < 2 ^ 16)
    (hack : seg.ack_num = (local_isn + 1) % 2 ^ 32) :
    (∀ w, rws = some w → MAX_WINDOW_SCALE < w →
       (negotiate_scales cfg rws).2 = MAX_WINDOW_SCALE) ∧
    (rws = none → negotiate_scales cfg rws = (0, 0) ∧
       sender_window_of (wait_for_ack cfg local_isn remote_isn synW rws mss seg)
         = some synW) ∧
    sender_window_of (wait_for_ack cfg local_isn remote_isn synW rws mss seg)
      = some (synW <<< (negotiate_scales cfg rws).2) := by
  have hs2 : (negotiate_scales cfg rws).2 ≤ MAX_WINDOW_SCALE := negotiate_scales_snd_le cfg rws
  have hs1 : (negotiate_scales cfg rws).1 ≤ MAX_WINDOW_SCALE := negotiate_scales_fst_le cfg rws hcfg
  have e1 : checked_shl32 synW (negotiate_scales cfg rws).2
      = some (synW <<< (negotiate_scales cfg rws).2) := by
    unfold checked_shl32
    rw [if_pos (show (negotiate_scales cfg rws).2 < 32 by
          unfold MAX_WINDOW_SCALE at hs2; omega)]
    rw [Nat.mod_eq_of_lt (shl16_lt synW _ hsynW
          (by unfold MAX_WINDOW_SCALE at hs2; omega))]
  have e2 : checked_shl32 cfg.receive_window_size (negotiate_scales cfg rws).1
      = some ((cfg.receive_window_size <<< (negotiate_scales cfg rws).1) % 2 ^ 32) := by
    unfold checked_shl32
    rw [if_pos (show (negotiate_scales cfg rws).1 < 32 by
          unfold MAX_WINDOW_SCALE at hs1; omega)]
  have hmain : sender_window_of (wait_for_ack cfg local_isn remote_isn synW rws mss seg)
      = some (synW <<< (negotiate_scales cfg rws).2) := by
    unfold wait_for_ack
    rw [if_neg (by simp [hack])]
    simp only [e1, e2]
    rfl
  refine ⟨?_, ?_, hmain⟩
  · intro w hw hgt
    subst hw
    simp [negotiate_scales, Nat.not_lt.mpr (le_of_lt hgt)]
  · intro hw
    subst hw
    refine ⟨rfl, ?_⟩
    rw [hmain]
    simp [negotiate_scales]

theorem window_scale_negotiation_witness :
    (negotiate_scales cfgW (some 20)).2 = MAX_WINDOW_SCALE ∧
    sender_window_of (wait_for_ack cfgW 50 1000 0x4000 (some 20) 536 ackSeg0)
      = some (0x4000 <<< (negotiate_scales cfgW (some 20)).2) ∧
    sender_window_of (wait_for_ack cfgW 50 1000 0x4000 (some 20) 536 ackSeg0)
      = some 0x10000000 :=
  ⟨(window_scale_negotiation cfgW 50 1000 536 0x4000 (some 20) ackSeg0
      (by decide) (by decide) (by decide)).1 20 rfl (by decide),
   (window_scale_negotiation cfgW 50 1000 536 0x4000 (some 20) ackSeg0
      (by decide) (by decide) (by decide)).2.2,
   by decide⟩

/-- Any configuration built by TcpConfig::new keeps the default window
scale of zero (the constructor only touches mss and checksum offload). -/
theorem tcp_config_new_window_scale (MIN_MSS MAX_MSS DEFAULT_MSS AD : Nat)
    (m : Option Nat) (co : Option Bool) (cfg2 : TcpConfig)
    (h : TcpConfig.new MIN_MSS MAX_MSS DEFAULT_MSS AD m co = some cfg2) :
    cfg2.window_scale = 0 := by
  cases m with
  | none =>
    cases co <;> simp [TcpConfig.new] at h <;> subst h <;> rfl
  | some v =>
    by_cases h1 : MIN_MSS ≤ v
    · by_cases h2 : v ≤ MAX_MSS
      · cases co <;> simp [TcpConfig.new, h1, h2] at h <;> subst h <;> rfl
      · simp [TcpConfig.new, h1, h2] at h
    · simp [TcpConfig.new, h1] at h

/-- C10: with a configured window scale within MAX_WINDOW_SCALE = 14 (as
holds for every configuration the program can build: TcpConfig::new and
TcpConfig::default keep window_scale = 0), both negotiated scales are at
most 14, both checked_shl calls return Some, and wait_for_ack never
reaches the "Window size overflow" panic, for every input segment. -/
theorem window_shift_total (cfg : TcpConfig) (hw local_isn remote_isn mss : Nat)
    (rws : Option Nat) (seg : TcpHeaderM)
    (hcfg : cfg.window_scale ≤ MAX_WINDOW_SCALE) :
    (negotiate_scales cfg rws).1 ≤ MAX_WINDOW_SCALE ∧
    (negotiate_scales cfg rws).2 ≤ MAX_WINDOW_SCALE ∧
    (checked_shl32 hw (negotiate_scales cfg rws).2).isSome = true ∧
    (checked_shl32 cfg.receive_window_size (negotiate_scales cfg rws).1).isSome = true ∧
    wait_for_ack cfg local_isn remote_isn hw rws mss seg ≠ none ∧
    (∀ MIN_MSS MAX_MSS DEFAULT_MSS AD m co cfg2,
       TcpConfig.new MIN_MSS MAX_MSS DEFAULT_MSS AD m co = some cfg2 →
       cfg2.window_scale ≤ MAX_WINDOW_SCALE) ∧
    (∀ DEFAULT_MSS AD, (TcpConfig.default DEFAULT_MSS AD).window_scale ≤ MAX_WINDOW_SCALE) := by
  have hs2 : (negotiate_scales cfg rws).2 ≤ MAX_WINDOW_SCALE := negotiate_scales_snd_le cfg rws
  have hs1 : (negotiate_scales cfg rws).1 ≤ MAX_WINDOW_SCALE := negotiate_scales_fst_le cfg rws hcfg
  have e1 : checked_shl32 hw (negotiate_scales cfg rws).2
      = some ((hw <<< (negotiate_scales cfg rws).2) % 2 ^ 32) := by
    unfold checked_shl32
    rw [if_pos (show (negotiate_scales cfg rws).2 < 32 by
          unfold MAX_WINDOW_SCALE at hs2; omega)]
  have e2 : checked_shl32 cfg.receive_window_size (negotiate_scales cfg rws).1
      = some ((cfg.receive_window_size <<< (negotiate_scales cfg rws).1) % 2 ^ 32) := by
    unfold checked_shl32
    rw [if_pos (show (negotiate_scales cfg rws).1 < 32 by
          unfold MAX_WINDOW_SCALE at hs1; omega)]
  refine ⟨hs1, hs2, by rw [e1]; rfl, by rw [e2]; rfl, ?_, ?_, fun _ _ => Nat.zero_le _⟩
  · unfold wait_for_ack
    by_cases hx : seg.ack_num ≠ (local_isn + 1) % 2 ^ 32
    · rw [if_pos hx]
      exact Option.some_ne_none _
    · rw [if_neg hx]
      simp only [e1, e2]
      exact Option.some_ne_none _
  · intro MIN MAX DEF AD m co cfg2 h
    rw [tcp_config_new_window_scale MIN MAX DEF AD m co cfg2 h]
    decide

theorem window_shift_total_witness :
    (negotiate_scales cfgW (some 20)).1 ≤ MAX_WINDOW_SCALE ∧
    (negotiate_scales cfgW (some 20)).2 ≤ MAX_WINDOW_SCALE ∧
    (checked_shl32 0xffff (negotiate_scales cfgW (some 20)).2).isSome = true ∧
    (checked_shl32 cfgW.receive_window_size (negotiate_scales cfgW (some 20)).1).isSome = true ∧
    wait_for_ack cfgW 50 1000 0xffff (some 20) 536 ackHdr0 ≠ none :=
  ⟨(window_shift_total cfgW 0xffff 50 1000 536 (some 20) ackHdr0 (by decide)).1,
   (window_shift_total cfgW 0xffff 50 1000 536 (some 20) ackHdr0 (by decide)).2.1,
   (window_shift_total cfgW 0xffff 50 1000 536 (some 20) ackHdr0 (by decide)).2.2.1,
   (window_shift_total cfgW 0xffff 50 1000 536 (some 20) ackHdr0 (by decide)).2.2.2.1,
   (window_shift_total cfgW 0xffff 50 1000 536 (some 20) ackHdr0 (by decide)).2.2.2.2.1⟩

/-- Processing a concatenation of SYN batches composes state and adds
RST counts. -/
theorem run_syns_append (s : PassiveState) (l1 l2 : List Nat) :
    run_syns s (l1 ++ l2)
      = ((run_syns (run_syns s l1).1 l2).1,
         (run_syns s l1).2 + (run_syns (run_syns s l1).1 l2).2) := by
  induction l1 generalizing s with
  | nil => simp [run_syns]
  | cons r rs ih =>
    simp [run_syns, ih, Nat.add_assoc]

/-- While the backlog is not exhausted, distinct fresh SYNs are all
admitted (no RST) and stack up in the connections map. -/
theorem run_syns_admits (l : List Nat) (s : PassiveState) (hnd : l.Nodup)
    (hfresh : ∀ r ∈ l, r ∉ s.connections)
    (hlen : s.connections.length + l.length ≤ s.max_backlog) :
    (run_syns s l).1 = { s with connections := l.reverse ++ s.connections } ∧
    (run_syns s l).2 = 0 := by
  induction l generalizing s with
  | nil => exact ⟨rfl, rfl⟩
  | cons r rs ih =>
    have hr : r ∉ s.connections := hfresh r (by simp)
    have hbl : ¬ s.max_backlog ≤ s.connections.length := by
      simp only [List.length_cons] at hlen
      omega
    have hstep : process_syn true s r
        = ({ s with connections := r :: s.connections }, .admitted) := by
      simp [process_syn, hr, handle_new_syn, hbl]
    have hnd2 : rs.Nodup := (List.nodup_cons.mp hnd).2
    have hrns : r ∉ rs := (List.nodup_cons.mp hnd).1
    obtain ⟨ih1, ih2⟩ := ih { s with connections := r :: s.connections } hnd2
      (by
        intro r2 hr2
        simp only [List.mem_cons]
        push_neg
        exact ⟨fun he => hrns (he ▸ hr2), hfresh r2 (List.mem_cons_of_mem r hr2)⟩)
      (by
        simp only [List.length_cons] at hlen ⊢
        omega)
    refine ⟨?_, ?_⟩
    · simp [run_syns, hstep, ih1, List.append_assoc]
    · simp [run_syns, hstep, ih2]

/-- C2: the in-flight connections map never grows beyond max_backlog: a
step of the poll loop (SYN dispatch or close notification) preserves the
bound; a fresh SYN is admitted exactly when the map size is strictly
below max_backlog, and at or above the bound the engine emits a RST and
leaves the state unchanged; starting from an empty listener with
max_backlog = k, k+1 SYNs from distinct remotes with no ACKs leave
exactly k in-flight entries with exactly one RST emitted (none during
the first k). -/
theorem backlog_bound :
    (∀ (s : PassiveState) (r : Nat) (sp : Bool),
       s.connections.length ≤ s.max_backlog →
       (process_syn sp s r).1.connections.length ≤ s.max_backlog ∧
       (close_notify s r).connections.length ≤ s.max_backlog) ∧
    (∀ (s : PassiveState) (r : Nat), r ∉ s.connections →
       s.connections.length < s.max_backlog →
       process_syn true s r = ({ s with connections := r :: s.connections }, .admitted)) ∧
    (∀ (s : PassiveState) (r : Nat) (sp : Bool),
       (process_syn sp s r).2 = SynAction.admitted →
       s.connections.length < s.max_backlog) ∧
    (∀ (s : PassiveState) (r : Nat) (sp : Bool), r ∉ s.connections →
       s.max_backlog ≤ s.connections.length →
       process_syn sp s r = (s, .rstSent)) ∧
    (∀ (k : Nat) (rs : List Nat), rs.Nodup → rs.length = k + 1 →
       (run_syns ⟨[], k, []⟩ rs).1.connections.length = k ∧
       (run_syns ⟨[], k, []⟩ rs).2 = 1 ∧
       (run_syns ⟨[], k, []⟩ (rs.take k)).2 = 0) := by
  refine ⟨?_, ?_, ?_, ?_, ?_⟩
  · intro s r sp hle
    constructor
    · by_cases hm : r ∈ s.connections
      · simp [process_syn, hm, hle]
      · by_cases hb : s.max_backlog ≤ s.connections.length
        · simp [process_syn, hm, handle_new_syn, hb, hle]
        · cases sp
          · simp [process_syn, hm, handle_new_syn, hb, hle]
          · simp [process_syn, hm, handle_new_syn, hb]
            omega
    · exact le_trans ((List.erase_sublist r s.connections).length_le) hle
  · intro s r hm hlt
    simp [process_syn, hm, handle_new_syn, Nat.not_le.mpr hlt]
  · intro s r sp hadm
    by_cases hm : r ∈ s.connections
    · simp [process_syn, hm] at hadm
    · by_cases hb : s.max_backlog ≤ s.connections.length
      · simp [process_syn, hm, handle_new_syn, hb] at hadm
      · omega
  · intro s r sp hm hb
    simp [process_syn, hm, handle_new_syn, hb]
  · intro k rs hnd hlen
    obtain ⟨a, ha⟩ : ∃ a, rs.drop k = [a] :=
      List.length_eq_one.mp (by rw [List.length_drop]; omega)
    have hsplit : rs = rs.take k ++ [a] := by
      conv_lhs => rw [← List.take_append_drop k rs, ha]
    have htake_len : (rs.take k).length = k := by
      rw [List.length_take]
      omega
    have hnd2 : (rs.take k ++ [a]).Nodup := hsplit ▸ hnd
    have hnd_take : (rs.take k).Nodup := hnd2.of_append_left
    have hdisj : a ∉ rs.take k := fun hmem =>
      (List.disjoint_of_nodup_append hnd2) hmem (by simp)
    obtain ⟨h1, h2⟩ := run_syns_admits (rs.take k) ⟨[], k, []⟩ hnd_take
      (by intro r hr; simp) (by simp [htake_len])
    have e : run_syns ⟨[], k, []⟩ rs = run_syns ⟨[], k, []⟩ (rs.take k ++ [a]) :=
      congrArg _ hsplit
    have hstep : process_syn true (⟨(rs.take k).reverse, k, []⟩ : PassiveState) a
        = ((⟨(rs.take k).reverse, k, []⟩ : PassiveState), .rstSent) := by
      have hmem : a ∉ (rs.take k).reverse := by
        simp only [List.mem_reverse]
        exact hdisj
      simp [process_syn, hmem, handle_new_syn, htake_len]
    refine ⟨?_, ?_, h2⟩
    · rw [e, run_syns_append, h1]
      simp [run_syns, hstep, htake_len]
    · rw [e, run_syns_append, h1, h2]
      simp [run_syns, hstep]

theorem backlog_bound_witness :
    run_syns ⟨[], 2, []⟩ [11, 22, 33]
      = (⟨[22, 11], 2, []⟩, 1) ∧
    (run_syns ⟨[], 2, []⟩ [11, 22, 33]).1.connections.length = 2 ∧
    (run_syns ⟨[], 2, []⟩ [11, 22, 33]).2 = 1 ∧
    (run_syns ⟨[], 2, []⟩ ([11, 22, 33].take 2)).2 = 0 := by
  have h := (backlog_bound).2.2.2.2 2 [11, 22, 33] (by decide) (by decide)
  exact ⟨by rfl, h.1, h.2.1, h.2.2⟩

/-- C9: when inserting the handshake coroutine fails, handle_new_syn
returns with the passive-socket state unchanged: no in-flight entry is
added and the ready queue is untouched; under a free backlog slot the
remote ends up in the connections map exactly when the coroutine spawn
succeeded.  The ready queue is never modified by handle_new_syn on any
path. -/
theorem syn_admission_atomicity (s : PassiveState) (r : Nat) (sp : Bool) :
    (sp = false → (handle_new_syn sp s r).1 = s) ∧
    (s.connections.length < s.max_backlog →
       handle_new_syn false s r = (s, .spawnFailed)) ∧
    (handle_new_syn sp s r).1.ready = s.ready ∧
    (s.connections.length < s.max_backlog →
       ((handle_new_syn sp s r).1.connections = r :: s.connections ↔ sp = true)) := by
  refine ⟨?_, ?_, ?_, ?_⟩
  · intro hsp
    subst hsp
    by_cases hb : s.max_backlog ≤ s.connections.length <;>
      simp [handle_new_syn, hb]
  · intro hlt
    simp [handle_new_syn, Nat.not_le.mpr hlt]
  · by_cases hb : s.max_backlog ≤ s.connections.length
    · simp [handle_new_syn, hb]
    · cases sp <;> simp [handle_new_syn, hb]
  · intro hlt
    constructor
    · intro hc
      by_contra hsp
      rw [Bool.not_eq_true] at hsp
      subst hsp
      simp only [handle_new_syn, if_neg (Nat.not_le.mpr hlt), Bool.false_eq_true,
        if_false] at hc
      exact (List.cons_ne_self r s.connections) hc.symm
    · intro hsp
      subst hsp
      simp [handle_new_syn, Nat.not_le.mpr hlt]

theorem syn_admission_atomicity_witness :
    handle_new_syn false (⟨[5], 3, []⟩ : PassiveState) 9
      = ((⟨[5], 3, []⟩ : PassiveState), .spawnFailed) ∧
    (handle_new_syn true (⟨[5], 3, []⟩ : PassiveState) 9).1.ready = [] ∧
    ((handle_new_syn true (⟨[5], 3, []⟩ : PassiveState) 9).1.connections
       = 9 :: [5] ↔ true = true) :=
  ⟨(syn_admission_atomicity ⟨[5], 3, []⟩ 9 false).2.1 (by decide),
   (syn_admission_atomicity ⟨[5], 3, []⟩ 9 true).2.2.1,
   (syn_admission_atomicity ⟨[5], 3, []⟩ 9 true).2.2.2 (by decide)⟩
